import Mathlib

set_option maxRecDepth 40000

/-!
Shallow embedding of `src/validator.py` (Tesla light-show FSEQ validator).

The byte stream handed to `validate` is modelled as a `List Nat` (one
element per byte of the file, in order).  In Python, `file.read(n)` at
position `p` returns the bytes `p, p+1, …`, up to `n` of them (fewer at
end of file, never an error), and `file.seek` moves the position; since
after the one absolute `file.seek(start)` every access moves strictly
forward, the analyzer state is represented by the remaining suffix of the
stream: `read n` is `take n` / `drop n`, and the relative `seek(2, 1)` is
`drop 2`.

Python floats appear only in `duration_s = frame_count * step_time / 1000`
(a product below 2^40, hence exact in binary64, compared against the
representable 300) and in `count / MEMORY_LIMIT`; both are modelled
exactly in `ℚ`.

`struct.unpack` raises `struct.error` when `file.read` returned fewer
bytes than the format string needs; every such raise in `validate`
happens before any `ValidationError` check, and all of them are one
observable outcome (an exception that is not a `ValidationError`, so it
even escapes the CLI handler).  They are modelled as one error value
`structError`, raised exactly when the stream is shorter than the 21
bytes the three `unpack` calls consume.
-/

/-- The maximum memory usage allowed for a Light Show (`MEMORY_LIMIT = 3500`). -/
def MEMORY_LIMIT : Nat := 3500

/-- Raising outcomes of `validate`.  The Python code raises a single
`ValidationError` class; the constructors record the distinct raise
sites and their data, in the taxonomy of the specification:

* `structError` — `struct.error` from `struct.unpack` on a short header
  (not a `ValidationError` at all);
* `formatError` — message `Unknown file format, expected FSEQ v2.0`;
* `channelCountError n` — message `Expected 48 channels, got n`;
* `compressionError` — message `Expected file format to be V2 Uncompressed`;
* `durationError d` — message `Expected total duration to be less than
  5 minutes, got d`. -/
inductive ValidationError where
  | structError : ValidationError
  | formatError : ValidationError
  | channelCountError : Nat → ValidationError
  | compressionError : ValidationError
  | durationError : ℚ → ValidationError
deriving DecidableEq

/-- The `ValidationResults` dataclass returned on success. -/
structure ValidationResults where
  frame_count : Nat
  step_time : Nat
  duration_s : ℚ
  memory_usage : ℚ
deriving DecidableEq

/-- Byte `i` of the stream (only read under the length guard, so the
default 0 is never load-bearing). -/
def byteAt (s : List Nat) (i : Nat) : Nat := (s.get? i).getD 0

/-- Little-endian 16-bit value from two bytes (`struct` format `<H`). -/
def u16le (b0 b1 : Nat) : Nat := b0 + 256 * b1

/-- Little-endian 32-bit value from four bytes (`struct` format `<I`). -/
def u32le (b0 b1 b2 b3 : Nat) : Nat := b0 + 256 * (b1 + 256 * (b2 + 256 * b3))

/-- The magic tag PSEQ as a byte list. -/
def pseqMagic : List Nat := [80, 83, 69, 81]

/-- Field `start`: offset of the light show data, bytes 4–5 (`<H` at offset 4). -/
def startOffset (s : List Nat) : Nat := u16le (byteAt s 4) (byteAt s 5)

/-- Field `minor`: file format minor version, byte 6. -/
def versionMinor (s : List Nat) : Nat := byteAt s 6

/-- Field `major`: file format major version, byte 7. -/
def versionMajor (s : List Nat) : Nat := byteAt s 7

/-- Field `channel_count`: bytes 10–13 (`<I` at offset 10). -/
def channelCount (s : List Nat) : Nat :=
  u32le (byteAt s 10) (byteAt s 11) (byteAt s 12) (byteAt s 13)

/-- Field `frame_count`: bytes 14–17 (`<I` at offset 14). -/
def frameCount (s : List Nat) : Nat :=
  u32le (byteAt s 14) (byteAt s 15) (byteAt s 16) (byteAt s 17)

/-- Field `step_time`: byte 18 (`<B` at offset 18). -/
def stepTime (s : List Nat) : Nat := byteAt s 18

/-- Field `compression_type`: byte 20 (`<B` at offset 20). -/
def compressionType (s : List Nat) : Nat := byteAt s 20

/-- Boolean state of one light byte: `b > 127`. -/
def lightBit (b : Nat) : Bool := decide (127 < b)

/-- Ramp quantization of one light byte:
`min((((255 - b) if (b > 127) else (b)) // 13 + 1) // 2, 3)`. -/
def rampLevel (b : Nat) : Nat :=
  min (((if 127 < b then 255 - b else b) / 13 + 1) / 2) 3

/-- Closure quantization of one closure byte: `(b // 32 + 1) // 2`. -/
def closureLevel (b : Nat) : Nat := (b / 32 + 1) / 2

/-- The analyzer loop state: the four retained `prev_*` vectors
(`None` before the first frame) and the running change-event `count`. -/
structure FrameAcc where
  prev_light : Option (List Bool)
  prev_ramp : Option (List Nat)
  prev_closure_1 : Option (List Nat)
  prev_closure_2 : Option (List Nat)
  count : Nat
deriving DecidableEq

/-- Loop state before the first frame: all `prev_*` are `None`, `count = 0`. -/
def initAcc : FrameAcc := ⟨none, none, none, none, 0⟩

/-- One iteration of the `for frame_i in range(frame_count)` body.
`data` is the unread suffix of the stream: `lights = file.read(30)`,
`closures = file.read(16)`, `file.seek(2, 1)`, then the four
compare-and-update steps in source order.  Returns the updated state and
the suffix left for the next frame. -/
def stepFrame (data : List Nat) (acc : FrameAcc) : FrameAcc × List Nat :=
  let lights := data.take 30
  let data1 := data.drop 30
  let closures := data1.take 16
  let data2 := (data1.drop 16).drop 2
  let light_state := lights.map lightBit
  let ramp_state := (lights.take 14).map rampLevel
  let closure_state := closures.map closureLevel
  let acc1 := if some light_state ≠ acc.prev_light then
      { acc with prev_light := some light_state, count := acc.count + 1 }
    else acc
  let acc2 := if some ramp_state ≠ acc1.prev_ramp then
      { acc1 with prev_ramp := some ramp_state, count := acc1.count + 1 }
    else acc1
  let acc3 := if some (closure_state.take 10) ≠ acc2.prev_closure_1 then
      { acc2 with prev_closure_1 := some (closure_state.take 10), count := acc2.count + 1 }
    else acc2
  let acc4 := if some (closure_state.drop 10) ≠ acc3.prev_closure_2 then
      { acc3 with prev_closure_2 := some (closure_state.drop 10), count := acc3.count + 1 }
    else acc3
  (acc4, data2)

/-- The analyzer loop: `n` remaining iterations over the suffix `data`. -/
def analyzeFrames : Nat → List Nat → FrameAcc → FrameAcc
  | 0, _, acc => acc
  | n + 1, data, acc =>
    let p := stepFrame data acc
    analyzeFrames n p.2 p.1

/-- The final `count` after `file.seek(start)` and `frames` loop iterations. -/
def changeEventCount (s : List Nat) (start frames : Nat) : Nat :=
  (analyzeFrames frames (s.drop start) initAcc).count

/-- The `validate` function of `validator.py`: header parsing and checks
in source order, then the frame loop, returning `ValidationResults` or
the raised error. -/
def validate (s : List Nat) : Except ValidationError ValidationResults :=
  if s.length < 21 then .error .structError
  else if s.take 4 ≠ pseqMagic ∨ startOffset s < 24 ∨ frameCount s < 1 ∨ stepTime s < 15 then
    .error .formatError
  else if channelCount s ≠ 48 then .error (.channelCountError (channelCount s))
  else if compressionType s ≠ 0 then .error .compressionError
  else if 300 < (frameCount s * stepTime s : ℚ) / 1000 then
    .error (.durationError ((frameCount s * stepTime s : ℚ) / 1000))
  else
    .ok ⟨frameCount s, stepTime s, (frameCount s * stepTime s : ℚ) / 1000,
      (changeEventCount s (startOffset s) (frameCount s) : ℚ) / (MEMORY_LIMIT : ℚ)⟩

/-- Whether the run prints the non-fatal version advisory: all fatal
checks before it pass and `((minor != 0) and (minor != 2)) or (major != 2)`. -/
def emitsWarning (s : List Nat) : Bool :=
  if s.length < 21 then false
  else if s.take 4 ≠ pseqMagic ∨ startOffset s < 24 ∨ frameCount s < 1 ∨ stepTime s < 15 then
    false
  else if channelCount s ≠ 48 then false
  else if compressionType s ≠ 0 then false
  else if 300 < (frameCount s * stepTime s : ℚ) / 1000 then false
  else decide ((versionMinor s ≠ 0 ∧ versionMinor s ≠ 2) ∨ versionMajor s ≠ 2)

/-! General lemmas about the embedding, shared by the claim theorems. -/

theorem changeEventCount_def (s : List Nat) (start frames : Nat) :
    changeEventCount s start frames = (analyzeFrames frames (s.drop start) initAcc).count :=
  rfl

theorem stepFrame_eq (data : List Nat) (acc : FrameAcc) :
    stepFrame data acc =
      (⟨some ((data.take 30).map lightBit),
        some (((data.take 30).take 14).map rampLevel),
        some ((((data.drop 30).take 16).map closureLevel).take 10),
        some ((((data.drop 30).take 16).map closureLevel).drop 10),
        acc.count
          + (if some ((data.take 30).map lightBit) = acc.prev_light then 0 else 1)
          + (if some (((data.take 30).take 14).map rampLevel) = acc.prev_ramp then 0 else 1)
          + (if some ((((data.drop 30).take 16).map closureLevel).take 10) = acc.prev_closure_1
              then 0 else 1)
          + (if some ((((data.drop 30).take 16).map closureLevel).drop 10) = acc.prev_closure_2
              then 0 else 1)⟩,
       ((data.drop 30).drop 16).drop 2) := by
  simp only [stepFrame]
  split_ifs <;> simp_all

theorem stepFrame_count_bounds (data : List Nat) (acc : FrameAcc) :
    acc.count ≤ (stepFrame data acc).1.count ∧
      (stepFrame data acc).1.count ≤ acc.count + 4 := by
  rw [stepFrame_eq]
  dsimp only
  split <;> split <;> split <;> split <;> omega

theorem stepFrame_initAcc_count (data : List Nat) :
    (stepFrame data initAcc).1.count = 4 := by
  rw [stepFrame_eq]
  simp [initAcc]

theorem analyzeFrames_succ (n : Nat) (data : List Nat) (acc : FrameAcc) :
    analyzeFrames (n + 1) data acc =
      analyzeFrames n (stepFrame data acc).2 (stepFrame data acc).1 := rfl

theorem analyzeFrames_count_bounds (n : Nat) :
    ∀ (data : List Nat) (acc : FrameAcc),
      acc.count ≤ (analyzeFrames n data acc).count ∧
        (analyzeFrames n data acc).count ≤ acc.count + 4 * n := by
  induction n with
  | zero => intro data acc; simp [analyzeFrames]
  | succ m ih =>
    intro data acc
    rw [analyzeFrames_succ]
    have hs := stepFrame_count_bounds data acc
    have hi := ih (stepFrame data acc).2 (stepFrame data acc).1
    omega

theorem changeEventCount_bounds (s : List Nat) (start n : Nat) :
    4 ≤ changeEventCount s start (n + 1) ∧
      changeEventCount s start (n + 1) ≤ 4 * (n + 1) := by
  rw [changeEventCount_def, analyzeFrames_succ]
  have h4 := stepFrame_initAcc_count (s.drop start)
  have hi := analyzeFrames_count_bounds n (stepFrame (s.drop start) initAcc).2
    (stepFrame (s.drop start) initAcc).1
  omega

theorem changeEventCount_one (s : List Nat) (start : Nat) :
    changeEventCount s start 1 = 4 := by
  rw [changeEventCount_def, analyzeFrames_succ]
  exact stepFrame_initAcc_count (s.drop start)

theorem validate_ok (s : List Nat)
    (h21 : ¬ s.length < 21)
    (hm : ¬ (s.take 4 ≠ pseqMagic ∨ startOffset s < 24 ∨ frameCount s < 1 ∨ stepTime s < 15))
    (hc : ¬ channelCount s ≠ 48)
    (hz : ¬ compressionType s ≠ 0)
    (hd : ¬ 300 < (frameCount s * stepTime s : ℚ) / 1000) :
    validate s = .ok ⟨frameCount s, stepTime s, (frameCount s * stepTime s : ℚ) / 1000,
      (changeEventCount s (startOffset s) (frameCount s) : ℚ) / (MEMORY_LIMIT : ℚ)⟩ := by
  unfold validate
  rw [if_neg h21, if_neg hm, if_neg hc, if_neg hz, if_neg hd]

theorem validate_err_struct (s : List Nat) (h21 : s.length < 21) :
    validate s = .error .structError := by
  unfold validate
  rw [if_pos h21]

theorem validate_err_format (s : List Nat) (h21 : ¬ s.length < 21)
    (hm : s.take 4 ≠ pseqMagic ∨ startOffset s < 24 ∨ frameCount s < 1 ∨ stepTime s < 15) :
    validate s = .error .formatError := by
  unfold validate
  rw [if_neg h21, if_pos hm]

theorem validate_err_channel (s : List Nat) (h21 : ¬ s.length < 21)
    (hm : ¬ (s.take 4 ≠ pseqMagic ∨ startOffset s < 24 ∨ frameCount s < 1 ∨ stepTime s < 15))
    (hc : channelCount s ≠ 48) :
    validate s = .error (.channelCountError (channelCount s)) := by
  unfold validate
  rw [if_neg h21, if_neg hm, if_pos hc]

theorem validate_err_compression (s : List Nat) (h21 : ¬ s.length < 21)
    (hm : ¬ (s.take 4 ≠ pseqMagic ∨ startOffset s < 24 ∨ frameCount s < 1 ∨ stepTime s < 15))
    (hc : ¬ channelCount s ≠ 48) (hz : compressionType s ≠ 0) :
    validate s = .error .compressionError := by
  unfold validate
  rw [if_neg h21, if_neg hm, if_neg hc, if_pos hz]

theorem validate_err_duration (s : List Nat) (h21 : ¬ s.length < 21)
    (hm : ¬ (s.take 4 ≠ pseqMagic ∨ startOffset s < 24 ∨ frameCount s < 1 ∨ stepTime s < 15))
    (hc : ¬ channelCount s ≠ 48) (hz : ¬ compressionType s ≠ 0)
    (hd : 300 < (frameCount s * stepTime s : ℚ) / 1000) :
    validate s = .error (.durationError ((frameCount s * stepTime s : ℚ) / 1000)) := by
  unfold validate
  rw [if_neg h21, if_neg hm, if_neg hc, if_neg hz, if_pos hd]

theorem validate_ok_inv (s : List Nat) (r : ValidationResults)
    (h : validate s = .ok r) :
    ¬ s.length < 21 ∧ s.take 4 = pseqMagic ∧ 24 ≤ startOffset s ∧ 1 ≤ frameCount s ∧
      15 ≤ stepTime s ∧ channelCount s = 48 ∧ compressionType s = 0 ∧
      (frameCount s * stepTime s : ℚ) / 1000 ≤ 300 ∧
      r = ⟨frameCount s, stepTime s, (frameCount s * stepTime s : ℚ) / 1000,
        (changeEventCount s (startOffset s) (frameCount s) : ℚ) / (MEMORY_LIMIT : ℚ)⟩ := by
  unfold validate at h
  by_cases h21 : s.length < 21
  · rw [if_pos h21] at h; exact absurd h (by simp)
  rw [if_neg h21] at h
  by_cases hm : s.take 4 ≠ pseqMagic ∨ startOffset s < 24 ∨ frameCount s < 1 ∨ stepTime s < 15
  · rw [if_pos hm] at h; exact absurd h (by simp)
  rw [if_neg hm] at h
  by_cases hc : channelCount s ≠ 48
  · rw [if_pos hc] at h; exact absurd h (by simp)
  rw [if_neg hc] at h
  by_cases hz : compressionType s ≠ 0
  · rw [if_pos hz] at h; exact absurd h (by simp)
  rw [if_neg hz] at h
  by_cases hd : 300 < (frameCount s * stepTime s : ℚ) / 1000
  · rw [if_pos hd] at h; exact absurd h (by simp)
  rw [if_neg hd] at h
  push_neg at hm
  refine ⟨h21, hm.1, by omega, by omega, by omega, by omega, by omega, le_of_not_lt hd, ?_⟩
  cases h
  rfl

/-- Streams that agree everywhere except possibly at the two version
bytes (offsets 6 and 7) validate identically: the version bytes feed
only the non-fatal advisory, never the returned value. -/
theorem validate_ext (s t : List Nat) (hlen : s.length = t.length)
    (hag : ∀ i : Nat, i ≠ 6 → i ≠ 7 → s.get? i = t.get? i) :
    validate s = validate t := by
  have hbyte : ∀ i : Nat, i ≠ 6 → i ≠ 7 → byteAt s i = byteAt t i := by
    intro i h6 h7
    unfold byteAt
    rw [hag i h6 h7]
  have hso : startOffset s = startOffset t := by
    unfold startOffset
    rw [hbyte 4 (by omega) (by omega), hbyte 5 (by omega) (by omega)]
  have hfc : frameCount s = frameCount t := by
    unfold frameCount
    rw [hbyte 14 (by omega) (by omega), hbyte 15 (by omega) (by omega),
      hbyte 16 (by omega) (by omega), hbyte 17 (by omega) (by omega)]
  have hst : stepTime s = stepTime t := by
    unfold stepTime
    exact hbyte 18 (by omega) (by omega)
  have hcc : channelCount s = channelCount t := by
    unfold channelCount
    rw [hbyte 10 (by omega) (by omega), hbyte 11 (by omega) (by omega),
      hbyte 12 (by omega) (by omega), hbyte 13 (by omega) (by omega)]
  have hct : compressionType s = compressionType t := by
    unfold compressionType
    exact hbyte 20 (by omega) (by omega)
  have hmagic : s.take 4 = t.take 4 := by
    apply List.ext_getElem?
    intro n
    rw [List.getElem?_take, List.getElem?_take]
    by_cases hn : n < 4
    · rw [if_pos hn, if_pos hn, ← List.get?_eq_getElem?, ← List.get?_eq_getElem?]
      exact hag n (by omega) (by omega)
    · rw [if_neg hn, if_neg hn]
  have hdrop : ∀ k : Nat, 8 ≤ k → s.drop k = t.drop k := by
    intro k hk
    apply List.ext_getElem?
    intro n
    rw [List.getElem?_drop, List.getElem?_drop, ← List.get?_eq_getElem?,
      ← List.get?_eq_getElem?]
    exact hag (k + n) (by omega) (by omega)
  by_cases h21 : t.length < 21
  · rw [validate_err_struct s (hlen ▸ h21), validate_err_struct t h21]
  have h21s : ¬ s.length < 21 := hlen ▸ h21
  by_cases hm : t.take 4 ≠ pseqMagic ∨ startOffset t < 24 ∨ frameCount t < 1 ∨ stepTime t < 15
  · have hms : s.take 4 ≠ pseqMagic ∨ startOffset s < 24 ∨ frameCount s < 1 ∨ stepTime s < 15 := by
      rw [hmagic, hso, hfc, hst]; exact hm
    rw [validate_err_format s h21s hms, validate_err_format t h21 hm]
  have hms : ¬ (s.take 4 ≠ pseqMagic ∨ startOffset s < 24 ∨ frameCount s < 1 ∨ stepTime s < 15) := by
    rw [hmagic, hso, hfc, hst]; exact hm
  by_cases hc : channelCount t ≠ 48
  · have hcs : channelCount s ≠ 48 := by rw [hcc]; exact hc
    rw [validate_err_channel s h21s hms hcs, validate_err_channel t h21 hm hc, hcc]
  have hcs : ¬ channelCount s ≠ 48 := by rw [hcc]; exact hc
  by_cases hz : compressionType t ≠ 0
  · have hzs : compressionType s ≠ 0 := by rw [hct]; exact hz
    rw [validate_err_compression s h21s hms hcs hzs, validate_err_compression t h21 hm hc hz]
  have hzs : ¬ compressionType s ≠ 0 := by rw [hct]; exact hz
  by_cases hd : 300 < (frameCount t * stepTime t : ℚ) / 1000
  · have hds : 300 < (frameCount s * stepTime s : ℚ) / 1000 := by rw [hfc, hst]; exact hd
    rw [validate_err_duration s h21s hms hcs hzs hds, validate_err_duration t h21 hm hc hz hd,
      hfc, hst]
  have hds : ¬ 300 < (frameCount s * stepTime s : ℚ) / 1000 := by rw [hfc, hst]; exact hd
  rw [validate_ok s h21s hms hcs hzs hds, validate_ok t h21 hm hc hz hd]
  have hcount : changeEventCount s (startOffset s) (frameCount s) =
      changeEventCount t (startOffset t) (frameCount t) := by
    rw [changeEventCount_def, changeEventCount_def, hso, hfc]
    rw [hdrop (startOffset t) (by push_neg at hm; omega)]
  rw [hcount, hfc, hst]

theorem emitsWarning_iff (s : List Nat) (r : ValidationResults)
    (h : validate s = .ok r) :
    emitsWarning s = true ↔
      ((versionMinor s ≠ 0 ∧ versionMinor s ≠ 2) ∨ versionMajor s ≠ 2) := by
  obtain ⟨h21, hmagic, hso, hfc, hst, hcc, hct, hd, -⟩ := validate_ok_inv s r h
  have hm : ¬ (s.take 4 ≠ pseqMagic ∨ startOffset s < 24 ∨ frameCount s < 1 ∨ stepTime s < 15) := by
    push_neg
    exact ⟨hmagic, by omega, by omega, by omega⟩
  unfold emitsWarning
  rw [if_neg h21, if_neg hm, if_neg (by omega : ¬ channelCount s ≠ 48),
    if_neg (by omega : ¬ compressionType s ≠ 0), if_neg (not_lt.mpr hd)]
  simp

/-! Concrete streams used as witnesses and counterexamples. -/

/-- A well-formed 24-byte header: magic `PSEQ`, `start = 24`,
`minor = 0`, `major = 2`, `channel_count = 48`,
`frame_count = fcLo + 256 * fcHi`, `step_time = stLo`,
`compression_type = 0`. -/
def headerBytes (fcLo fcHi stLo : Nat) : List Nat :=
  [80, 83, 69, 81, 24, 0, 0, 2, 0, 0, 48, 0, 0, 0, fcLo, fcHi, 0, 0, stLo, 0, 0, 0, 0, 0]

/-- A complete valid one-frame file: header (`frame_count = 1`,
`step_time = 15`) followed by one all-zero 48-byte frame. -/
def oneFrameStream : List Nat := headerBytes 1 0 15 ++ List.replicate 48 0

/-- A truncated file: the header declares `frame_count = 10` but only 5
complete 48-byte frames (all zero) follow. -/
def truncStream : List Nat := headerBytes 10 0 15 ++ List.replicate 240 0

/-- A header-only file declaring `frame_count = 20000`, `step_time = 15`
(duration exactly 300 s); no frame data follows. -/
def boundaryStream : List Nat := headerBytes 32 78 15

/-- Variant of `oneFrameStream` with the version bytes (offsets 6–7) replaced by
`minor = 9`, `major = 9`. -/
def oddVersionStream : List Nat :=
  [80, 83, 69, 81, 24, 0, 9, 9, 0, 0, 48, 0, 0, 0, 1, 0, 0, 0, 15, 0, 0, 0, 0, 0]
    ++ List.replicate 48 0

/-- A 48-byte frame of all-zero bytes. -/
def frameA : List Nat := [0, 0, 0, 0, 0, 0, 0, 0, 0, 0, 0, 0, 0, 0, 0, 0, 0, 0, 0, 0, 0, 0, 0, 0, 0, 0, 0, 0, 0, 0, 0, 0, 0, 0, 0, 0, 0, 0, 0, 0, 0, 0, 0, 0, 0, 0, 0, 0]

/-- A 48-byte frame of bytes all equal to 200 (differs from `frameA` in
every tracked group after quantization). -/
def frameB : List Nat := [200, 200, 200, 200, 200, 200, 200, 200, 200, 200, 200, 200, 200, 200, 200, 200, 200, 200, 200, 200, 200, 200, 200, 200, 200, 200, 200, 200, 200, 200, 200, 200, 200, 200, 200, 200, 200, 200, 200, 200, 200, 200, 200, 200, 200, 200, 200, 200]

/-- The analyzer state right after processing a `frameA` frame. -/
def accA (c : Nat) : FrameAcc :=
  ⟨some (List.replicate 30 false), some (List.replicate 14 0),
   some (List.replicate 10 0), some (List.replicate 6 0), c⟩

/-- The analyzer state right after processing a `frameB` frame. -/
def accB (c : Nat) : FrameAcc :=
  ⟨some (List.replicate 30 true), some (List.replicate 14 2),
   some (List.replicate 10 3), some (List.replicate 6 3), c⟩

/-- Concatenation of `k` copies of the two-frame pattern `frameA, frameB`. -/
def patRepeat : Nat → List Nat
  | 0 => []
  | k + 1 => frameA ++ (frameB ++ patRepeat k)

theorem patRepeat_length (k : Nat) : (patRepeat k).length = 96 * k := by
  induction k with
  | zero => rfl
  | succ m ih =>
    show (frameA ++ (frameB ++ patRepeat m)).length = 96 * (m + 1)
    simp only [List.length_append, ih]
    norm_num [frameA, frameB]
    ring

theorem stepFrame_A_init (rest : List Nat) :
    stepFrame (frameA ++ rest) initAcc = (accA 4, rest) := rfl

theorem stepFrame_A_after_B (rest : List Nat) (c : Nat) :
    stepFrame (frameA ++ rest) (accB c) = (accA (c + 4), rest) := rfl

theorem stepFrame_B_after_A (rest : List Nat) (c : Nat) :
    stepFrame (frameB ++ rest) (accA c) = (accB (c + 4), rest) := rfl

theorem analyzeFrames_pat (k : Nat) :
    ∀ c : Nat, analyzeFrames (2 * k) (patRepeat k) (accB c) = accB (c + 8 * k) := by
  induction k with
  | zero => intro c; simp [analyzeFrames, accB]
  | succ m ih =>
    intro c
    have h2 : 2 * (m + 1) = (2 * m + 1) + 1 := by ring
    rw [h2]
    show analyzeFrames (2 * m + 1 + 1) (frameA ++ (frameB ++ patRepeat m)) (accB c) = _
    rw [analyzeFrames_succ, stepFrame_A_after_B, analyzeFrames_succ, stepFrame_B_after_A, ih]
    congr 1
    ring

theorem analyzeFrames_pat_init (k : Nat) (h : 1 ≤ k) :
    (analyzeFrames (2 * k) (patRepeat k) initAcc).count = 8 * k := by
  obtain ⟨m, rfl⟩ : ∃ m, k = m + 1 := ⟨k - 1, by omega⟩
  have h2 : 2 * (m + 1) = (2 * m + 1) + 1 := by ring
  rw [h2]
  show (analyzeFrames (2 * m + 1 + 1) (frameA ++ (frameB ++ patRepeat m)) initAcc).count = _
  rw [analyzeFrames_succ, stepFrame_A_init, analyzeFrames_succ, stepFrame_B_after_A,
    analyzeFrames_pat]
  show 4 + 4 + 8 * m = 8 * (m + 1)
  ring

/-- A valid file with 876 frames alternating `frameA`, `frameB`: every
frame changes all four groups, so the change-event count is `4 × 876 =
3504 > 3500`. -/
def overBudgetStream : List Nat := headerBytes 108 3 15 ++ patRepeat 438

theorem overBudgetStream_length : overBudgetStream.length = 42072 := by
  show (headerBytes 108 3 15 ++ patRepeat 438).length = 42072
  rw [List.length_append, patRepeat_length]
  rfl

theorem overBudgetStream_drop : overBudgetStream.drop 24 = patRepeat 438 := by
  show (headerBytes 108 3 15 ++ patRepeat 438).drop 24 = patRepeat 438
  exact List.drop_left' rfl

theorem overBudgetStream_count : changeEventCount overBudgetStream 24 876 = 3504 := by
  rw [changeEventCount_def, overBudgetStream_drop]
  have h : (876 : Nat) = 2 * 438 := by norm_num
  rw [h, analyzeFrames_pat_init 438 (by norm_num)]

theorem validate_overBudgetStream :
    validate overBudgetStream =
      .ok ⟨876, 15, (876 * 15 : ℚ) / 1000, (3504 : ℚ) / 3500⟩ := by
  have h2 : startOffset overBudgetStream = 24 := rfl
  have h3 : frameCount overBudgetStream = 876 := rfl
  have h4 : stepTime overBudgetStream = 15 := rfl
  have h := validate_ok overBudgetStream
    (by rw [overBudgetStream_length]; norm_num)
    (by simp [h2, h3, h4, show overBudgetStream.take 4 = pseqMagic from rfl])
    (by simp [show channelCount overBudgetStream = 48 from rfl])
    (by simp [show compressionType overBudgetStream = 0 from rfl])
    (by rw [h3, h4]; norm_num)
  rw [h, h2, h3, h4, overBudgetStream_count]
  norm_num [MEMORY_LIMIT]

/-! Claim theorems. -/

/-- C1 counterexample: `truncStream` declares `frame_count = 10` but its
data region holds only 5 complete 48-byte frames (264 bytes in total,
against the promised `24 + 10 × 48 = 504`); `validate` does not fail with
any truncation error — it returns a successful result whose
change-event count (8) was computed from the short data (the missing
frames read as empty). -/
theorem C1_counterexample :
    truncStream.length = 264 ∧ startOffset truncStream = 24 ∧
      frameCount truncStream = 10 ∧
      truncStream.length < startOffset truncStream + 48 * frameCount truncStream ∧
      validate truncStream = .ok ⟨10, 15, (3 : ℚ) / 20, (8 : ℚ) / 3500⟩ := by
  refine ⟨by decide, by decide, by decide, by decide, ?_⟩
  have h := validate_ok truncStream (by decide) (by decide) (by decide) (by decide)
    (by rw [show frameCount truncStream = 10 from by decide,
      show stepTime truncStream = 15 from by decide]; norm_num)
  rw [h, show frameCount truncStream = 10 from by decide,
    show stepTime truncStream = 15 from by decide,
    show startOffset truncStream = 24 from by decide,
    show changeEventCount truncStream 24 10 = 8 from by decide]
  norm_num [MEMORY_LIMIT]

/-- C1 (amended): `validate` never detects frame-data truncation.  For
every stream whose header passes the fatal checks, even one whose frame
data region is truncated (fewer than `frame_count × 48` bytes available
from `data_start_offset` onward), `validate` returns a successful result
whose change-event count is computed from the short data; no
`TruncatedDataError` exists in the code. -/
theorem C1_truncation_not_detected (s : List Nat)
    (h21 : ¬ s.length < 21)
    (hmagic : s.take 4 = pseqMagic) (hso : 24 ≤ startOffset s)
    (hfc : 1 ≤ frameCount s) (hst : 15 ≤ stepTime s)
    (hcc : channelCount s = 48) (hct : compressionType s = 0)
    (hd : (frameCount s * stepTime s : ℚ) / 1000 ≤ 300)
    (htrunc : s.length < startOffset s + 48 * frameCount s) :
    validate s = .ok ⟨frameCount s, stepTime s, (frameCount s * stepTime s : ℚ) / 1000,
      (changeEventCount s (startOffset s) (frameCount s) : ℚ) / (MEMORY_LIMIT : ℚ)⟩ :=
  validate_ok s h21 (by push_neg; exact ⟨hmagic, by omega, by omega, by omega⟩)
    (by omega) (by omega) (not_lt.mpr hd)

/-- C1 witness: the amended theorem applied to the concrete truncated
stream `truncStream`. -/
theorem C1_truncation_not_detected_witness :
    validate truncStream = .ok ⟨frameCount truncStream, stepTime truncStream,
      (frameCount truncStream * stepTime truncStream : ℚ) / 1000,
      (changeEventCount truncStream (startOffset truncStream) (frameCount truncStream) : ℚ) /
        (MEMORY_LIMIT : ℚ)⟩ :=
  C1_truncation_not_detected truncStream (by decide) (by decide) (by decide) (by decide)
    (by decide) (by decide) (by decide)
    (by rw [show frameCount truncStream = 10 from by decide,
      show stepTime truncStream = 15 from by decide]; norm_num)
    (by decide)

/-- C2 counterexample: the ramp quantization maps byte 127 to level 3,
not 2 as the claim states (`127 // 13 = 9`, `(9 + 1) // 2 = 5`,
`min 5 3 = 3`). -/
theorem C2_counterexample : rampLevel 127 = 3 ∧ rampLevel 127 ≠ 2 := by decide

/-- C2 (amended): the ramp quantization is exactly
`level = min(((v // 13) + 1) // 2, 3)` with `v = 255 − byte` when
`byte > 127` and `v = byte` otherwise; it maps byte 0 to level 0, byte
255 to level 0, and byte 127 to level 3 (not 2); per frame it is applied
to the first 14 of the 30 light bytes. -/
theorem C2_ramp_quantization :
    (∀ b : Nat, rampLevel b =
        min (((if 127 < b then 255 - b else b) / 13 + 1) / 2) 3) ∧
      rampLevel 0 = 0 ∧ rampLevel 255 = 0 ∧ rampLevel 127 = 3 ∧
      ∀ (data : List Nat) (acc : FrameAcc),
        (stepFrame data acc).1.prev_ramp =
          some (((data.take 30).take 14).map rampLevel) := by
  refine ⟨fun b => rfl, by decide, by decide, by decide, fun data acc => ?_⟩
  rw [stepFrame_eq]

/-- C3: the closure quantization is `level = (byte // 32 + 1) // 2` with
no clamping (byte 0 gives 0, byte 255 gives 4), and per frame the
16-element quantized closure vector is split into its first 10 values
(`closure_state[:10]`, retained as `prev_closure_1`) and remaining 6
values (`closure_state[10:]`, retained as `prev_closure_2`), compared
independently. -/
theorem C3_closure_quantization :
    (∀ b : Nat, closureLevel b = (b / 32 + 1) / 2) ∧
      closureLevel 0 = 0 ∧ closureLevel 255 = 4 ∧
      (∀ (data : List Nat) (acc : FrameAcc),
        (stepFrame data acc).1.prev_closure_1 =
            some ((((data.drop 30).take 16).map closureLevel).take 10) ∧
          (stepFrame data acc).1.prev_closure_2 =
            some ((((data.drop 30).take 16).map closureLevel).drop 10)) ∧
      ∀ closures : List Nat, closures.length = 16 →
        ((closures.map closureLevel).take 10).length = 10 ∧
          ((closures.map closureLevel).drop 10).length = 6 := by
  refine ⟨fun b => rfl, by decide, by decide, fun data acc => ?_, fun cs h => ?_⟩
  · rw [stepFrame_eq]
    exact ⟨rfl, rfl⟩
  · constructor <;> simp [h]

/-- C3 witness: the split sizes evaluated on a concrete 16-byte closure
vector. -/
theorem C3_closure_quantization_witness :
    (((List.replicate 16 200).map closureLevel).take 10).length = 10 ∧
      (((List.replicate 16 200).map closureLevel).drop 10).length = 6 :=
  C3_closure_quantization.2.2.2.2 (List.replicate 16 200) (by decide)

/-- C4 counterexample: the single-byte stream `[88]` has first 4 bytes
(that is, the single byte `X`) different from `PSEQ`, yet `validate`
fails with `structError` (Python: an uncaught `struct.error` from
`struct.unpack`), not with the `formatError` the claim promises for
every bad-magic stream. -/
theorem C4_counterexample :
    [88].take 4 ≠ pseqMagic ∧ validate [88] = .error .structError ∧
      ValidationError.structError ≠ ValidationError.formatError :=
  ⟨by decide, rfl, by decide⟩

/-- C4 (amended): for every stream long enough for header unpacking
(at least 21 bytes) whose first 4 bytes are not `PSEQ`, `validate` fails
with `formatError`, regardless of the remaining content; shorter streams
instead die in `struct.unpack` before the magic check. -/
theorem C4_bad_magic (s : List Nat) (h21 : 21 ≤ s.length)
    (hmagic : s.take 4 ≠ pseqMagic) :
    validate s = .error .formatError :=
  validate_err_format s (by omega) (Or.inl hmagic)

/-- C4 witness: the amended theorem applied to 21 zero bytes. -/
theorem C4_bad_magic_witness :
    validate (List.replicate 21 0) = .error .formatError :=
  C4_bad_magic (List.replicate 21 0) (by decide) (by decide)

/-- C5: for every header passing the format, channel-count and
compression checks, the duration is exactly
`frame_count × step_time / 1000` and validation fails with
`durationError` precisely when that value exceeds 300 seconds; at or
below 300 it succeeds and the returned `duration_s` equals that value. -/
theorem C5_duration (s : List Nat) (h21 : 21 ≤ s.length)
    (hmagic : s.take 4 = pseqMagic) (hso : 24 ≤ startOffset s)
    (hfc : 1 ≤ frameCount s) (hst : 15 ≤ stepTime s)
    (hcc : channelCount s = 48) (hct : compressionType s = 0) :
    (300 < (frameCount s * stepTime s : ℚ) / 1000 →
        validate s = .error (.durationError ((frameCount s * stepTime s : ℚ) / 1000))) ∧
      ((frameCount s * stepTime s : ℚ) / 1000 ≤ 300 →
        ∃ r : ValidationResults, validate s = .ok r ∧
          r.duration_s = (frameCount s * stepTime s : ℚ) / 1000) := by
  have hm : ¬ (s.take 4 ≠ pseqMagic ∨ startOffset s < 24 ∨ frameCount s < 1 ∨
      stepTime s < 15) := by
    push_neg
    exact ⟨hmagic, by omega, by omega, by omega⟩
  constructor
  · intro hd
    exact validate_err_duration s (by omega) hm (by omega) (by omega) hd
  · intro hd
    exact ⟨_, validate_ok s (by omega) hm (by omega) (by omega) (not_lt.mpr hd), rfl⟩

/-- C5 witness: the boundary case `frame_count = 20000`,
`step_time = 15` (duration exactly 300 s) does not fail. -/
theorem C5_duration_witness :
    (frameCount boundaryStream * stepTime boundaryStream : ℚ) / 1000 ≤ 300 ∧
      ∃ r : ValidationResults, validate boundaryStream = .ok r ∧
        r.duration_s = (frameCount boundaryStream * stepTime boundaryStream : ℚ) / 1000 := by
  have hd : (frameCount boundaryStream * stepTime boundaryStream : ℚ) / 1000 ≤ 300 := by
    rw [show frameCount boundaryStream = 20000 from by decide,
      show stepTime boundaryStream = 15 from by decide]
    norm_num
  exact ⟨hd, (C5_duration boundaryStream (by decide) (by decide) (by decide) (by decide)
    (by decide) (by decide) (by decide)).2 hd⟩

/-- C6: after exactly one frame the change-event count is always exactly
4 (every group counts as changed against the empty previous state), and
every successful run with `frame_count = 1` returns
`memory_usage = 4 / 3500`. -/
theorem C6_first_frame :
    (∀ (s : List Nat) (start : Nat), changeEventCount s start 1 = 4) ∧
      ∀ (s : List Nat) (r : ValidationResults), validate s = .ok r →
        frameCount s = 1 → r.memory_usage = (4 : ℚ) / (MEMORY_LIMIT : ℚ) := by
  refine ⟨changeEventCount_one, fun s r h h1 => ?_⟩
  obtain ⟨-, -, -, -, -, -, -, -, hr⟩ := validate_ok_inv s r h
  rw [hr]
  show (changeEventCount s (startOffset s) (frameCount s) : ℚ) / (MEMORY_LIMIT : ℚ) = _
  rw [h1, changeEventCount_one]
  norm_num

/-- C6 witness: the one-frame stream validates successfully and its
memory usage is `4 / 3500`. -/
theorem C6_first_frame_witness :
    changeEventCount oneFrameStream 24 1 = 4 ∧
      ∃ r : ValidationResults, validate oneFrameStream = .ok r ∧
        r.memory_usage = (4 : ℚ) / (MEMORY_LIMIT : ℚ) := by
  have hv := validate_ok oneFrameStream (by decide) (by decide) (by decide) (by decide)
    (by rw [show frameCount oneFrameStream = 1 from by decide,
      show stepTime oneFrameStream = 15 from by decide]; norm_num)
  exact ⟨C6_first_frame.1 oneFrameStream 24,
    ⟨_, hv, C6_first_frame.2 oneFrameStream _ hv (by decide)⟩⟩

/-- C7: on success the returned `memory_usage` is exactly the
change-event count divided by the constant 3500, with no clamping; there
are inputs for which the ratio exceeds 1 and is still returned as a
valid result. -/
theorem C7_memory_ratio :
    (∀ (s : List Nat) (r : ValidationResults), validate s = .ok r →
        r.memory_usage =
          (changeEventCount s (startOffset s) (frameCount s) : ℚ) / (MEMORY_LIMIT : ℚ)) ∧
      ∃ (s : List Nat) (r : ValidationResults),
        validate s = .ok r ∧ 1 < r.memory_usage := by
  constructor
  · intro s r h
    obtain ⟨-, -, -, -, -, -, -, -, hr⟩ := validate_ok_inv s r h
    rw [hr]
  · refine ⟨overBudgetStream, ⟨876, 15, (876 * 15 : ℚ) / 1000, (3504 : ℚ) / 3500⟩,
      validate_overBudgetStream, ?_⟩
    show (1 : ℚ) < (3504 : ℚ) / 3500
    norm_num

/-- C7 witness: the ratio equation evaluated on the over-budget
alternating-frame stream. -/
theorem C7_memory_ratio_witness :
    (⟨876, 15, (876 * 15 : ℚ) / 1000, (3504 : ℚ) / 3500⟩ : ValidationResults).memory_usage =
      (changeEventCount overBudgetStream (startOffset overBudgetStream)
        (frameCount overBudgetStream) : ℚ) / (MEMORY_LIMIT : ℚ) :=
  C7_memory_ratio.1 overBudgetStream _ validate_overBudgetStream

/-- C8: the version bytes never influence the returned value — two
streams of equal length agreeing everywhere except possibly at offsets 6
and 7 validate to identical results (success or typed failure alike) —
and on every successful run the advisory is emitted exactly when
`(major, minor)` is neither `(2, 0)` nor `(2, 2)`. -/
theorem C8_version_advisory :
    (∀ s t : List Nat, s.length = t.length →
        (∀ i : Nat, i ≠ 6 → i ≠ 7 → s.get? i = t.get? i) →
        validate s = validate t) ∧
      ∀ (s : List Nat) (r : ValidationResults), validate s = .ok r →
        (emitsWarning s = true ↔
          ((versionMinor s ≠ 0 ∧ versionMinor s ≠ 2) ∨ versionMajor s ≠ 2)) :=
  ⟨validate_ext, emitsWarning_iff⟩

/-- C8 witness: `oddVersionStream` (version 9.9) validates to the same
result as `oneFrameStream` (version 2.0), and emits the advisory. -/
theorem C8_version_advisory_witness :
    validate oddVersionStream = validate oneFrameStream ∧
      emitsWarning oddVersionStream = true := by
  have hdrop8 : oddVersionStream.drop 8 = oneFrameStream.drop 8 := by decide
  have hag : ∀ i : Nat, i ≠ 6 → i ≠ 7 →
      oddVersionStream.get? i = oneFrameStream.get? i := by
    intro i h6 h7
    rcases Nat.lt_or_ge i 8 with hi | hi
    · interval_cases i <;> first | rfl | omega
    · obtain ⟨j, rfl⟩ : ∃ j, i = 8 + j := ⟨i - 8, by omega⟩
      rw [List.get?_eq_getElem?, List.get?_eq_getElem?, ← List.getElem?_drop,
        ← List.getElem?_drop, hdrop8]
  have heq := C8_version_advisory.1 oddVersionStream oneFrameStream (by decide) hag
  have hv := validate_ok oneFrameStream (by decide) (by decide) (by decide) (by decide)
    (by rw [show frameCount oneFrameStream = 1 from by decide,
      show stepTime oneFrameStream = 15 from by decide]; norm_num)
  refine ⟨heq, ?_⟩
  exact (C8_version_advisory.2 oddVersionStream _ (heq.trans hv)).mpr (by decide)

/-- C9: validation is deterministic — identical byte streams yield
identical results (and identical change-event counts). -/
theorem C9_deterministic (s t : List Nat) (h : s = t) :
    validate s = validate t ∧
      changeEventCount s (startOffset s) (frameCount s) =
        changeEventCount t (startOffset t) (frameCount t) := by
  subst h
  exact ⟨rfl, rfl⟩

/-- C9 witness: determinism applied at the concrete one-frame stream. -/
theorem C9_deterministic_witness :
    validate oneFrameStream = validate oneFrameStream ∧
      changeEventCount oneFrameStream (startOffset oneFrameStream)
          (frameCount oneFrameStream) =
        changeEventCount oneFrameStream (startOffset oneFrameStream)
          (frameCount oneFrameStream) :=
  C9_deterministic oneFrameStream oneFrameStream rfl

/-- C10: the fold counter is monotone (each frame adds between 0 and
4), and every successful run has `frame_count ≥ 1` and a final
change-event count `c` with `4 ≤ c ≤ 4 × frame_count`, reflected in the
returned ratio. -/
theorem C10_count_bounds :
    (∀ (n : Nat) (data : List Nat) (acc : FrameAcc),
        acc.count ≤ (analyzeFrames n data acc).count ∧
          (analyzeFrames n data acc).count ≤ acc.count + 4 * n) ∧
      ∀ (s : List Nat) (r : ValidationResults), validate s = .ok r →
        1 ≤ r.frame_count ∧
          4 ≤ changeEventCount s (startOffset s) r.frame_count ∧
          changeEventCount s (startOffset s) r.frame_count ≤ 4 * r.frame_count ∧
          r.memory_usage =
            (changeEventCount s (startOffset s) r.frame_count : ℚ) / (MEMORY_LIMIT : ℚ) := by
  refine ⟨analyzeFrames_count_bounds, fun s r h => ?_⟩
  obtain ⟨-, -, -, hfc, -, -, -, -, hr⟩ := validate_ok_inv s r h
  have hfr : r.frame_count = frameCount s := by rw [hr]
  have hmu : r.memory_usage =
      (changeEventCount s (startOffset s) (frameCount s) : ℚ) / (MEMORY_LIMIT : ℚ) := by
    rw [hr]
  obtain ⟨m, hm⟩ : ∃ m, frameCount s = m + 1 := ⟨frameCount s - 1, by omega⟩
  have hb := changeEventCount_bounds s (startOffset s) m
  rw [hfr, hmu, hm]
  exact ⟨by omega, hb.1, hb.2, rfl⟩

/-- C10 witness: the bounds evaluated on the successful one-frame run. -/
theorem C10_count_bounds_witness :
    ∃ r : ValidationResults, validate oneFrameStream = .ok r ∧
      1 ≤ r.frame_count ∧
      4 ≤ changeEventCount oneFrameStream (startOffset oneFrameStream) r.frame_count ∧
      changeEventCount oneFrameStream (startOffset oneFrameStream) r.frame_count ≤
        4 * r.frame_count := by
  have hv := validate_ok oneFrameStream (by decide) (by decide) (by decide) (by decide)
    (by rw [show frameCount oneFrameStream = 1 from by decide,
      show stepTime oneFrameStream = 15 from by decide]; norm_num)
  have h := C10_count_bounds.2 oneFrameStream _ hv
  exact ⟨_, hv, h.1, h.2.1, h.2.2.1⟩
